import Mathlib

set_option maxRecDepth 8000

/-! A shallow embedding of `src/config_manager.py`: identifiers, the JSON value
tree, capability interfaces, target indirection, item and file templates, and
the `ConfigManager` lifecycle (register → finalize → load/save).  The external
collaborators (filesystem, JSON codec, logging) are modelled as explicit state:
a path-indexed store of parsed JSON documents, a heap of target owners, and an
event log recording factory invocations, reconfigure invocations and overwrite
warnings. -/

namespace ConfigManagerPy

/-- `FILE_ID = str | int` and `ITEM_ID = str | int`. -/
inductive PyId where
  | s (v : String)
  | i (v : Int)
deriving DecidableEq

/-- `JSON_ITEM`: primitive scalars (modelled by strings and integers), ordered
lists, and string-keyed objects; objects are insertion-ordered association
lists, like Python dicts. -/
inductive JsonValue where
  | str (s : String)
  | int (n : Int)
  | list (xs : List JsonValue)
  | obj (fields : List (String × JsonValue))

/-- First-match lookup in an association list (Python `d.get(k)` / `d[k]`). -/
def lookupKey {κ α : Type} [DecidableEq κ] : List (κ × α) → κ → Option α
  | [], _ => Option.none
  | (k, v) :: rest, q => if k = q then some v else lookupKey rest q

/-- Python `d[k] = v`: replace in place when the key exists, else append
(Python dicts preserve insertion order). -/
def setKey {κ α : Type} [DecidableEq κ] : List (κ × α) → κ → α → List (κ × α)
  | [], q, v => [(q, v)]
  | (k, w) :: rest, q, v => if k = q then (q, v) :: rest else (k, w) :: setKey rest q v

/-- Python `d.setdefault(k, d0)`: returns the (possibly extended) dict together
with the entry now stored at `k`. -/
def setdefault {κ α : Type} [DecidableEq κ] (l : List (κ × α)) (k : κ) (d : α) :
    List (κ × α) × α :=
  match lookupKey l k with
  | some v => (l, v)
  | Option.none => (l ++ [(k, d)], d)

/-- A runtime value implementing `I_ConfigSerializable`: it carries its
`config_serialize` method. -/
structure SerEnt where
  serialize : PyId → JsonValue

/-- A Python runtime value as stored at a target destination (an owner's
attribute or dict entry): `None`, a value that does not implement
`I_ConfigSerializable` (e.g. a plain int or str, identified by a JSON
payload), or a value that does. -/
inductive PyVal where
  | none
  | raw (j : JsonValue)
  | ent (e : SerEnt)

/-- A direct `I_ConfigItem` destination: a mutable Python object, modelled as
opaque internal state (a JSON payload) together with its fixed class methods:
`config_serialize` reads the state, `config_reconfig` computes the new state
(the source mutates `self`; here `reconfig` returns the updated entity).
`serializable` records whether the object implements `I_ConfigSerializable`
(the source checks this with `issubclass` at save time and never validates it
at registration time). -/
structure DirectEnt where
  serializable : Bool
  state : JsonValue
  serializeF : JsonValue → PyId → JsonValue
  reconfigF : JsonValue → PyId → JsonValue → List PyVal → List (String × PyVal) → JsonValue

def DirectEnt.serialize (e : DirectEnt) (item_id : PyId) : JsonValue :=
  e.serializeF e.state item_id

def DirectEnt.reconfig (e : DirectEnt) (item_id : PyId) (j : JsonValue)
    (args : List PyVal) (kwargs : List (String × PyVal)) : DirectEnt :=
  { e with state := e.reconfigF e.state item_id j args kwargs }

/-- `I_ConfigItemFactory`: `config_deserialize(item_id, json_obj, *args,
**kwargs)` constructs (or replaces) a value from a JSON value or `None`. -/
structure Factory where
  config_deserialize : PyId → Option JsonValue → List PyVal → List (String × PyVal) → PyVal

/-- An owner of target destinations: a Python dict, or the attribute table of
an arbitrary object.  `dict.get(k, None)` / `getattr(obj, k, None)` and
`d[k] = v` / `setattr(obj, k, v)` have the same read/write semantics, so one
table models both branches of the source. -/
abbrev Owner := List (String × PyVal)

/-- The owners reachable from registered `ConfigTarget`s, addressed by
reference. -/
abbrev Heap := List (Nat × Owner)

/-- `ConfigTarget(obj, attr, factory)`: `obj` is a reference into the heap of
owners. -/
structure ConfigTarget where
  obj : Nat
  attr : String
  factory : Factory

/-- The destination of one item template: the source stores
`I_ConfigItem | ConfigTarget` and dispatches on `type(self.target) ==
ConfigTarget`; this is that tagged variant. -/
inductive Dest where
  | entity (e : DirectEnt)
  | target (t : ConfigTarget)

/-- `ConfigItemTemplate(target, default_args, default_kwargs)`. -/
structure ConfigItemTemplate where
  target : Dest
  default_args : List PyVal
  default_kwargs : List (String × PyVal)

/-- `ConfigFileTemplate(file_path, file_required, item_templates)`. -/
structure ConfigFileTemplate where
  file_path : Option String
  file_required : Bool
  item_templates : List (PyId × ConfigItemTemplate)

/-- The empty file template produced by the `setdefault` defaults
`ConfigFileTemplate(file_path=None)` / `ConfigFileTemplate(item_templates={})`
in `add_file_path` / `add_items`. -/
def ConfigFileTemplate.empty : ConfigFileTemplate :=
  { file_path := Option.none, file_required := false, item_templates := [] }

/-- `ConfigManager.__init__`: empty template table, not finalized. -/
structure ConfigManager where
  _file_templates : List (PyId × ConfigFileTemplate)
  _finalized : Bool

/-- Observable side effects of load: a `_logger.warning` on overwrite, a
`factory.config_deserialize` invocation, a `target.config_reconfig`
invocation. -/
inductive Event where
  | overwriteWarn (ref : Nat) (attr : String)
  | factoryCall (item_id : PyId) (json_obj : Option JsonValue)
  | reconfigCall (item_id : PyId) (json_obj : JsonValue)

def Event.isReconfig : Event → Bool
  | .reconfigCall _ _ => true
  | _ => false

/-- The world outside the manager: the heap of target owners, the filesystem
(path ↦ parsed JSON document; a present path is exactly `os.path.isfile`),
and the log of observable events. -/
structure World where
  heap : Heap
  fs : List (String × JsonValue)
  events : List Event

/-- The `RuntimeError`s (plus the two `TypeError` situations marked below)
raised by the source, with the data their messages carry. -/
inductive Err where
  | pathReassigned (file_id : PyId)
  | duplicateItem (item_id : PyId)
  | badDefaultArgs
  | badDefaultKwargs
  | badTemplateCtor
  | unsupportedItemLike
  | missingPaths (ids : List PyId)
  | notFinalized
  | unknownFileId (file_id : PyId)
  | requiredFileMissing (file_id : PyId)
  | fileIdMismatch
  | docKeyError (key : String)
  | notADict
  | noPath
  | nonExistentObject
  | notSerializable
deriving DecidableEq

/-- `owner.get(attr, None)` / `getattr(owner, attr, None)`. -/
def pyGet (o : Owner) (attr : String) : PyVal :=
  (lookupKey o attr).getD .none

/-- Python `x == None` for the values in this model (no custom `__eq__`
returning true against `None`). -/
def pyIsNone : PyVal → Bool
  | .none => true
  | _ => false

/-- Dereference a `ConfigTarget.obj`; registered targets always point at a
live owner. -/
def getOwner (h : Heap) (ref : Nat) : Owner :=
  (lookupKey h ref).getD []

/-- `ConfigItemTemplate._serialize_obj`: resolve the object to serialize
(for a `ConfigTarget`, read the owner's attribute/key with `None` default and
fail when it `== None`), then require `I_ConfigSerializable` and invoke
`config_serialize`. -/
def ConfigItemTemplate._serialize_obj (self : ConfigItemTemplate) (item_id : PyId)
    (h : Heap) : Except Err JsonValue :=
  match self.target with
  | .target t =>
      let tv := pyGet (getOwner h t.obj) t.attr
      if pyIsNone tv then .error .nonExistentObject
      else
        match tv with
        | .ent e => .ok (e.serialize item_id)
        | _ => .error .notSerializable
  | .entity e =>
      if e.serializable then .ok (e.serialize item_id) else .error .notSerializable

/-- `ConfigItemTemplate._deserialize_obj`: for a `ConfigTarget`, warn when a
non-`None` value is already present, then unconditionally store the factory's
result (the factory is invoked even when `json_obj` is `None`); for a direct
entity, invoke `config_reconfig` only when `json_obj` is not `None`. -/
def ConfigItemTemplate._deserialize_obj (self : ConfigItemTemplate) (item_id : PyId)
    (json_obj : Option JsonValue) (w : World) : ConfigItemTemplate × World :=
  match self.target with
  | .target t =>
      let owner := getOwner w.heap t.obj
      let attr_obj := pyGet owner t.attr
      let warnEvents := if pyIsNone attr_obj then [] else [Event.overwriteWarn t.obj t.attr]
      let newVal := t.factory.config_deserialize item_id json_obj
        self.default_args self.default_kwargs
      (self,
        { w with
          heap := setKey w.heap t.obj (setKey owner t.attr newVal),
          events := w.events ++ warnEvents ++ [Event.factoryCall item_id json_obj] })
  | .entity e =>
      match json_obj with
      | some j =>
          ({ self with
             target := .entity (e.reconfig item_id j self.default_args self.default_kwargs) },
           { w with events := w.events ++ [Event.reconfigCall item_id j] })
      | Option.none => (self, w)

/-- An element of a Python tuple beyond the destination: an exact `list`, an
exact `dict`, or anything else (`type(x) != list` / `type(x) != dict`). -/
inductive PyAny where
  | list (xs : List PyVal)
  | dict (kvs : List (String × PyVal))
  | other

def PyAny.isList : PyAny → Bool
  | .list _ => true
  | _ => false

def PyAny.isDict : PyAny → Bool
  | .dict _ => true
  | _ => false

def PyAny.asList : PyAny → List PyVal
  | .list xs => xs
  | _ => []

def PyAny.asDict : PyAny → List (String × PyVal)
  | .dict kvs => kvs
  | _ => []

/-- A `CONFIG_ITEM_LIKE` value passed to `add_items`: a prebuilt template, a
bare `ConfigTarget`, a bare `I_ConfigItem`, a tuple whose first element is a
valid destination, or any other value (including a tuple whose first element
is neither a `ConfigTarget` nor an `I_ConfigItem`), which falls through to
the `Unsupported CONFIG_ITEM_LIKE type` branch. -/
inductive ItemLike where
  | tmpl (t : ConfigItemTemplate)
  | target (t : ConfigTarget)
  | entity (e : DirectEnt)
  | tup (head : Dest) (rest : List PyAny)
  | unsupported

/-- The tuple branch of `add_items`: `item_like[1]` (when present) must be an
exact `list`, `item_like[2]` (when present) an exact `dict`; then
`ConfigItemTemplate(*item_like)` is constructed (a tuple of four or more
elements makes that constructor raise `TypeError`, modelled by
`badTemplateCtor`). -/
def buildFromTuple : Dest → List PyAny → Except Err ConfigItemTemplate
  | head, [] => .ok ⟨head, [], []⟩
  | head, [a] =>
      if a.isList then .ok ⟨head, a.asList, []⟩ else .error .badDefaultArgs
  | head, [a, b] =>
      if a.isList then
        if b.isDict then .ok ⟨head, a.asList, b.asDict⟩ else .error .badDefaultKwargs
      else .error .badDefaultArgs
  | _, a :: b :: _ :: _ =>
      if a.isList then
        if b.isDict then .error .badTemplateCtor else .error .badDefaultKwargs
      else .error .badDefaultArgs

/-- The registration loop of `add_items`: reject a duplicate item id, then
store the item-like as a template; a raise leaves the file template with
every previously processed item still registered. -/
def addItemsLoop : ConfigFileTemplate → List (PyId × ItemLike) →
    ConfigFileTemplate × Option Err
  | ft, [] => (ft, Option.none)
  | ft, (item_id, item_like) :: rest =>
      if (lookupKey ft.item_templates item_id).isSome then
        (ft, some (.duplicateItem item_id))
      else
        match item_like with
        | .tmpl t =>
            addItemsLoop { ft with item_templates := setKey ft.item_templates item_id t } rest
        | .target t =>
            addItemsLoop
              { ft with item_templates := setKey ft.item_templates item_id ⟨.target t, [], []⟩ }
              rest
        | .entity e =>
            addItemsLoop
              { ft with item_templates := setKey ft.item_templates item_id ⟨.entity e, [], []⟩ }
              rest
        | .tup head tupRest =>
            match buildFromTuple head tupRest with
            | .ok t =>
                addItemsLoop { ft with item_templates := setKey ft.item_templates item_id t } rest
            | .error e => (ft, some e)
        | .unsupported => (ft, some .unsupportedItemLike)

/-- `ConfigManager.add_file_path`: `setdefault` the file template, clear
`_finalized` (before any validation), then enforce set-once path
assignment. -/
def ConfigManager.add_file_path (self : ConfigManager) (file_id : PyId)
    (file_path : String) (file_required : Bool) : ConfigManager × Option Err :=
  let sd := setdefault self._file_templates file_id ConfigFileTemplate.empty
  let m : ConfigManager := { _file_templates := sd.1, _finalized := false }
  if (sd.2.file_path).isSome then
    (m, some (.pathReassigned file_id))
  else
    ({ m with
       _file_templates :=
         setKey sd.1 file_id
           { sd.2 with file_path := some file_path, file_required := file_required } },
     Option.none)

/-- `ConfigManager.add_items`: `setdefault` the file template, clear
`_finalized` (before any validation), then run the registration loop; the
partially filled template is stored back even when the loop raises. -/
def ConfigManager.add_items (self : ConfigManager) (file_id : PyId)
    (items : List (PyId × ItemLike)) : ConfigManager × Option Err :=
  let sd := setdefault self._file_templates file_id ConfigFileTemplate.empty
  let r := addItemsLoop sd.2 items
  ({ _file_templates := setKey sd.1 file_id r.1, _finalized := false }, r.2)

/-- `ConfigManager.finalize_layout`: collect every file id whose template has
no path; fail with the complete list when non-empty, else set `_finalized`. -/
def ConfigManager.finalize_layout (self : ConfigManager) : ConfigManager × Option Err :=
  let query_result :=
    (self._file_templates.filter fun p => p.2.file_path.isNone).map Prod.fst
  if query_result.length > 0 then
    (self, some (.missingPaths query_result))
  else
    ({ self with _finalized := true }, Option.none)

/-- `json_data[key]` on a parsed document (`KeyError` / `TypeError` when the
document is not an object holding the key). -/
def jsonAsObj : JsonValue → Option (List (String × JsonValue))
  | .obj fields => some fields
  | _ => Option.none

def jsonIndex (j : JsonValue) (key : String) : Option JsonValue :=
  match jsonAsObj j with
  | some fields => lookupKey fields key
  | Option.none => Option.none

/-- Python `file_properties["id"] == file_id`: a JSON string equals a `str`
id, a JSON number equals an `int` id, anything else compares unequal. -/
def jsonEqId : JsonValue → PyId → Bool
  | .str s, .s t => s == t
  | .int n, .i m => n == m
  | _, _ => false

/-- `file_items.get(item_id, None)` after `json.load`: the parsed object's
keys are strings, so an `int` item id never matches any key. -/
def idLookup (kvs : List (String × JsonValue)) (item_id : PyId) : Option JsonValue :=
  match item_id with
  | .s k => lookupKey kvs k
  | .i _ => Option.none

/-- The JSON value an item obtains from the parsed file: `None` for a missing
file, `file_items.get(item_id, None)` for a present one. -/
def fileGet : Option (List (String × JsonValue)) → PyId → Option JsonValue
  | Option.none, _ => Option.none
  | some kvs, item_id => idLookup kvs item_id

/-- The per-item loop shared by both arms of `_load_config_file`: deserialize
every registered item template in order, threading the world. -/
def loadItemsLoop : List (PyId × ConfigItemTemplate) →
    Option (List (String × JsonValue)) → World →
    List (PyId × ConfigItemTemplate) × World
  | [], _, w => ([], w)
  | (item_id, tmpl) :: rest, file_items, w =>
      let r1 := tmpl._deserialize_obj item_id (fileGet file_items item_id) w
      let r2 := loadItemsLoop rest file_items r1.2
      ((item_id, r1.1) :: r2.1, r2.2)

/-- `ConfigManager._load_config_file`: missing file → fail when required,
else default-construct every item; present file → check `properties.id`,
then deserialize every item from `general_items`. -/
def ConfigManager._load_config_file (file_id : PyId) (file_template : ConfigFileTemplate)
    (w : World) : ConfigFileTemplate × World × Option Err :=
  match file_template.file_path with
  | Option.none => (file_template, w, some .noPath)
  | some path =>
      match lookupKey w.fs path with
      | Option.none =>
          if file_template.file_required then
            (file_template, w, some (.requiredFileMissing file_id))
          else
            let r := loadItemsLoop file_template.item_templates Option.none w
            ({ file_template with item_templates := r.1 }, r.2, Option.none)
      | some json_data =>
          match jsonIndex json_data "properties" with
          | Option.none => (file_template, w, some (.docKeyError "properties"))
          | some file_properties =>
              match jsonIndex file_properties "id" with
              | Option.none => (file_template, w, some (.docKeyError "id"))
              | some idv =>
                  if jsonEqId idv file_id then
                    match jsonIndex json_data "general_items" with
                    | Option.none => (file_template, w, some (.docKeyError "general_items"))
                    | some gi =>
                        match jsonAsObj gi with
                        | Option.none => (file_template, w, some .notADict)
                        | some file_items =>
                            let r := loadItemsLoop file_template.item_templates
                              (some file_items) w
                            ({ file_template with item_templates := r.1 }, r.2, Option.none)
                  else
                    (file_template, w, some .fileIdMismatch)

/-- The per-file loop of `load_configs`: an exception aborts the iteration,
leaving the remaining file templates and the world as they were. -/
def loadFilesLoop : List (PyId × ConfigFileTemplate) → World →
    List (PyId × ConfigFileTemplate) × World × Option Err
  | [], w => ([], w, Option.none)
  | (fid, ft) :: rest, w =>
      let r := ConfigManager._load_config_file fid ft w
      match r.2.2 with
      | some e => ((fid, r.1) :: rest, r.2.1, some e)
      | Option.none =>
          let rr := loadFilesLoop rest r.2.1
          ((fid, r.1) :: rr.1, rr.2.1, rr.2.2)

/-- `ConfigManager.load_configs`: checks the finalize gate, then loads every
registered file. -/
def ConfigManager.load_configs (self : ConfigManager) (w : World) :
    ConfigManager × World × Option Err :=
  if self._finalized = false then (self, w, some .notFinalized)
  else
    let r := loadFilesLoop self._file_templates w
    ({ self with _file_templates := r.1 }, r.2.1, r.2.2)

/-- `ConfigManager.load_config_file`: checks the finalize gate, looks the file
template up (`KeyError` when unknown), then loads that one file. -/
def ConfigManager.load_config_file (self : ConfigManager) (file_id : PyId) (w : World) :
    ConfigManager × World × Option Err :=
  if self._finalized = false then (self, w, some .notFinalized)
  else
    match lookupKey self._file_templates file_id with
    | Option.none => (self, w, some (.unknownFileId file_id))
    | some ft =>
        let r := ConfigManager._load_config_file file_id ft w
        ({ self with _file_templates := setKey self._file_templates file_id r.1 },
         r.2.1, r.2.2)

/-- The serialize loop of `_save_config_file`: serialize every item in order;
an exception aborts the loop before anything is written to disk. -/
def saveItemsLoop (h : Heap) : List (PyId × ConfigItemTemplate) →
    Except Err (List (PyId × JsonValue))
  | [] => .ok []
  | (item_id, tmpl) :: rest =>
      match tmpl._serialize_obj item_id h with
      | .error e => .error e
      | .ok j =>
          match saveItemsLoop h rest with
          | .error e => .error e
          | .ok tail => .ok ((item_id, j) :: tail)

/-- `str(file_id)` as a JSON object key: `json.dump` coerces non-string dict
keys to strings when writing the document. -/
def idKey : PyId → String
  | .s v => v
  | .i v => toString v

/-- The JSON value of a `properties.id` field for a given file id. -/
def idToJson : PyId → JsonValue
  | .s v => .str v
  | .i v => .int v

/-- The `general_items` object as written by `json.dump`: each item id is
coerced to a string key, per the on-disk format of spec §6. -/
def dumpItems (json_items : List (PyId × JsonValue)) : List (String × JsonValue) :=
  json_items.map fun p => (idKey p.1, p.2)

/-- The document `_save_config_file` writes, as it reads back through
`json.load`: `properties.id` holds the file id, `general_items` maps each
item id — coerced to a string key by `json.dump` — to its serialized
value. -/
def dumpDoc (file_id : PyId) (json_items : List (PyId × JsonValue)) : JsonValue :=
  .obj [("properties", .obj [("id", idToJson file_id)]),
        ("general_items", .obj (dumpItems json_items))]

/-- `ConfigManager._save_config_file`: serialize every item, then overwrite
the file at the template's path with the assembled document. -/
def ConfigManager._save_config_file (file_id : PyId) (file_template : ConfigFileTemplate)
    (w : World) : World × Option Err :=
  match file_template.file_path with
  | Option.none => (w, some .noPath)
  | some path =>
      match saveItemsLoop w.heap file_template.item_templates with
      | .error e => (w, some e)
      | .ok json_items =>
          ({ w with fs := setKey w.fs path (dumpDoc file_id json_items) }, Option.none)

/-- The per-file loop of `save_configs`: an exception aborts the iteration. -/
def saveFilesLoop : List (PyId × ConfigFileTemplate) → World → World × Option Err
  | [], w => (w, Option.none)
  | (fid, ft) :: rest, w =>
      let r := ConfigManager._save_config_file fid ft w
      match r.2 with
      | some e => (r.1, some e)
      | Option.none => saveFilesLoop rest r.1

/-- `ConfigManager.save_configs`: checks the finalize gate, then saves every
registered file. -/
def ConfigManager.save_configs (self : ConfigManager) (w : World) : World × Option Err :=
  if self._finalized = false then (w, some .notFinalized)
  else saveFilesLoop self._file_templates w

/-- `ConfigManager.save_config_file`: checks the finalize gate, looks the file
template up (`KeyError` when unknown), then saves that one file. -/
def ConfigManager.save_config_file (self : ConfigManager) (file_id : PyId) (w : World) :
    World × Option Err :=
  if self._finalized = false then (w, some .notFinalized)
  else
    match lookupKey self._file_templates file_id with
    | Option.none => (w, some (.unknownFileId file_id))
    | some ft => ConfigManager._save_config_file file_id ft w

/-- Manager states reachable through the registration and finalize API from a
fresh `ConfigManager()`. -/
inductive Reachable : ConfigManager → Prop where
  | init : Reachable { _file_templates := [], _finalized := false }
  | addPath (m : ConfigManager) (fid : PyId) (p : String) (req : Bool) :
      Reachable m → Reachable (m.add_file_path fid p req).1
  | addItems (m : ConfigManager) (fid : PyId) (items : List (PyId × ItemLike)) :
      Reachable m → Reachable (m.add_items fid items).1
  | finalize (m : ConfigManager) :
      Reachable m → Reachable m.finalize_layout.1

/-- Whether an item template writes the heap slot `(ref, attr)` when
deserialized. -/
def writesSlot (tmpl : ConfigItemTemplate) (ref : Nat) (attr : String) : Bool :=
  match tmpl.target with
  | .target t => t.obj == ref && t.attr == attr
  | .entity _ => false

/-! ### Association-list lemmas -/

theorem lookupKey_setKey_self {κ α : Type} [DecidableEq κ] (l : List (κ × α)) (k : κ)
    (v : α) : lookupKey (setKey l k v) k = some v := by
  induction l with
  | nil => simp [setKey, lookupKey]
  | cons p rest ih =>
      obtain ⟨k0, v0⟩ := p
      by_cases h : k0 = k
      · simp [setKey, lookupKey, h]
      · simp [setKey, lookupKey, h, ih]

theorem lookupKey_setKey_ne {κ α : Type} [DecidableEq κ] (l : List (κ × α)) (k q : κ)
    (v : α) (h : q ≠ k) : lookupKey (setKey l k v) q = lookupKey l q := by
  have hne : ¬ k = q := fun hh => h hh.symm
  induction l with
  | nil =>
      simp [setKey, lookupKey, hne]
  | cons p rest ih =>
      obtain ⟨k0, v0⟩ := p
      by_cases hk : k0 = k
      · subst hk
        simp [setKey, lookupKey, hne]
      · simp [setKey, lookupKey, hk, ih]

theorem setKey_eq_of_lookup {κ α : Type} [DecidableEq κ] (l : List (κ × α)) (k : κ)
    (v : α) (h : lookupKey l k = some v) : setKey l k v = l := by
  induction l with
  | nil => simp [lookupKey] at h
  | cons p rest ih =>
      obtain ⟨k0, v0⟩ := p
      by_cases hk : k0 = k
      · subst hk
        simp [lookupKey] at h
        simp [setKey, h]
      · simp [lookupKey, hk] at h
        simp [setKey, hk, ih h]

theorem lookupKey_isSome_setKey {κ α : Type} [DecidableEq κ] (l : List (κ × α))
    (k q : κ) (v : α) (h : (lookupKey l q).isSome = true) :
    (lookupKey (setKey l k v) q).isSome = true := by
  by_cases hq : q = k
  · subst hq; simp [lookupKey_setKey_self]
  · rw [lookupKey_setKey_ne l k q v hq]; exact h

theorem lookupKey_of_mem_nodup {κ α : Type} [DecidableEq κ] (l : List (κ × α)) (k : κ)
    (v : α) (hnd : (l.map Prod.fst).Nodup) (hmem : (k, v) ∈ l) :
    lookupKey l k = some v := by
  induction l with
  | nil => cases hmem
  | cons p rest ih =>
      obtain ⟨k0, v0⟩ := p
      simp only [List.map_cons, List.nodup_cons] at hnd
      rcases List.mem_cons.mp hmem with h | h
      · obtain ⟨hk, hv⟩ := Prod.mk.injEq .. ▸ h
        subst hk; subst hv
        simp [lookupKey]
      · by_cases hk : k0 = k
        · subst hk
          exact absurd (List.mem_map.mpr ⟨(k0, v), h, rfl⟩) hnd.1
        · simp [lookupKey, hk, ih hnd.2 h]

theorem getOwner_setKey_self (h : Heap) (r : Nat) (o : Owner) :
    getOwner (setKey h r o) r = o := by
  simp [getOwner, lookupKey_setKey_self]

theorem getOwner_setKey_ne (h : Heap) (r q : Nat) (o : Owner) (hne : q ≠ r) :
    getOwner (setKey h r o) q = getOwner h q := by
  simp [getOwner, lookupKey_setKey_ne _ _ _ _ hne]

theorem pyGet_setKey_self (o : Owner) (a : String) (v : PyVal) :
    pyGet (setKey o a v) a = v := by
  simp [pyGet, lookupKey_setKey_self]

theorem pyGet_setKey_ne (o : Owner) (a b : String) (v : PyVal) (hne : b ≠ a) :
    pyGet (setKey o a v) b = pyGet o b := by
  simp [pyGet, lookupKey_setKey_ne _ _ _ _ hne]

/-! ### Lifecycle lemmas -/

theorem manager_eta (m : ConfigManager) (h : m._finalized = true) :
    ({ _file_templates := m._file_templates, _finalized := true } : ConfigManager) = m := by
  obtain ⟨ts, f⟩ := m
  cases f
  · exact absurd h (by simp)
  · rfl

theorem add_file_path_finalized (m : ConfigManager) (fid : PyId) (p : String)
    (req : Bool) : (m.add_file_path fid p req).1._finalized = false := by
  unfold ConfigManager.add_file_path
  cases h : (setdefault m._file_templates fid ConfigFileTemplate.empty).2.file_path.isSome <;>
    simp [h]

theorem add_items_finalized (m : ConfigManager) (fid : PyId)
    (items : List (PyId × ItemLike)) : (m.add_items fid items).1._finalized = false := rfl

/-- While a manager is finalized, every registered file template has a path:
registration always clears the flag and only a fully-pathed finalize sets
it. -/
theorem reachable_finalized_paths (m : ConfigManager) (hm : Reachable m) :
    m._finalized = true →
    m._file_templates.filter (fun p => p.2.file_path.isNone) = [] := by
  induction hm with
  | init => intro h; cases h
  | addPath m0 fid p req _ _ =>
      intro h
      rw [add_file_path_finalized] at h
      cases h
  | addItems m0 fid items _ _ =>
      intro h
      rw [add_items_finalized] at h
      cases h
  | finalize m0 _ ih =>
      intro h
      unfold ConfigManager.finalize_layout at h ⊢
      by_cases hl :
          ((m0._file_templates.filter fun p => p.2.file_path.isNone).map Prod.fst).length > 0
      · simp only [hl, if_pos] at h ⊢
        exact ih h
      · simp only [hl, if_neg, not_false_eq_true] at h ⊢
        simp only [List.length_map, gt_iff_lt, not_lt, Nat.le_zero] at hl
        exact List.length_eq_zero.mp hl

/-- C3: for every manager state reachable by well-formed registrations,
`finalize_layout` succeeds iff every registered file template has a non-null
path; on failure the reported ids are exactly the registered file ids whose
template lacks a path (as the source's filter, and as a set), and the
finalized flag comes out true exactly on success. -/
theorem finalize_layout_spec (m : ConfigManager) (hm : Reachable m) :
    (m.finalize_layout.2 = Option.none ↔
      ∀ p ∈ m._file_templates, (p.2.file_path).isSome = true) ∧
    (∀ e, m.finalize_layout.2 = some e →
      e = Err.missingPaths
        ((m._file_templates.filter fun p => p.2.file_path.isNone).map Prod.fst)) ∧
    (∀ ids, m.finalize_layout.2 = some (Err.missingPaths ids) →
      ∀ fid, fid ∈ ids ↔
        ∃ ft, (fid, ft) ∈ m._file_templates ∧ ft.file_path = Option.none) ∧
    (m.finalize_layout.1._finalized = true ↔ m.finalize_layout.2 = Option.none) := by
  unfold ConfigManager.finalize_layout
  by_cases hl :
      ((m._file_templates.filter fun p => p.2.file_path.isNone).map Prod.fst).length > 0
  · have hflag : m._finalized = false := by
      cases hf : m._finalized
      · rfl
      · have := reachable_finalized_paths m hm hf
        rw [this] at hl
        simp at hl
    simp only [hl, if_pos]
    refine ⟨?_, ?_, ?_, ?_⟩
    · constructor
      · intro h; cases h
      · intro h
        exfalso
        simp only [List.length_map] at hl
        obtain ⟨p, hp⟩ := List.exists_mem_of_length_pos hl
        have hmem := List.mem_filter.mp hp
        have := h p hmem.1
        rw [Option.isNone_iff_eq_none.mp hmem.2] at this
        cases this
    · intro e he
      exact (Option.some.injEq .. ▸ he).symm
    · intro ids hids fid
      have : ids = (m._file_templates.filter fun p => p.2.file_path.isNone).map Prod.fst := by
        have := Option.some.injEq .. ▸ hids
        exact (Err.missingPaths.injEq .. ▸ this).symm
      subst this
      simp only [List.mem_map, List.mem_filter]
      constructor
      · rintro ⟨⟨pfid, pft⟩, ⟨hmem, hnone⟩, rfl⟩
        exact ⟨pft, hmem, Option.isNone_iff_eq_none.mp hnone⟩
      · rintro ⟨ft, hmem, hnone⟩
        exact ⟨(fid, ft), ⟨hmem, by simp [hnone]⟩, rfl⟩
    · simp [hflag]
  · simp only [hl, if_neg, not_false_eq_true]
    have hnil : (m._file_templates.filter fun p => p.2.file_path.isNone) = [] := by
      simp only [List.length_map, gt_iff_lt, not_lt, Nat.le_zero] at hl
      exact List.length_eq_zero.mp hl
    refine ⟨?_, ?_, ?_, ?_⟩
    · simp only [true_iff]
      intro p hp
      by_contra hns
      have : p ∈ m._file_templates.filter fun p => p.2.file_path.isNone := by
        refine List.mem_filter.mpr ⟨hp, ?_⟩
        simp [Option.isNone_iff_eq_none, Option.not_isSome_iff_eq_none.mp hns]
      rw [hnil] at this
      cases this
    · intro e he; cases he
    · intro ids hids; cases hids
    · simp

def freshManager : ConfigManager := { _file_templates := [], _finalized := false }

def emptyWorld : World := { heap := [], fs := [], events := [] }

def oneFileManager : ConfigManager :=
  (freshManager.add_file_path (.s "a") "p" false).1

theorem finalize_layout_spec_witness :
    (oneFileManager.finalize_layout.2 = Option.none ↔
      ∀ p ∈ oneFileManager._file_templates, (p.2.file_path).isSome = true) ∧
    (∀ e, oneFileManager.finalize_layout.2 = some e →
      e = Err.missingPaths
        ((oneFileManager._file_templates.filter fun p => p.2.file_path.isNone).map
          Prod.fst)) ∧
    (∀ ids, oneFileManager.finalize_layout.2 = some (Err.missingPaths ids) →
      ∀ fid, fid ∈ ids ↔
        ∃ ft, (fid, ft) ∈ oneFileManager._file_templates ∧
          ft.file_path = Option.none) ∧
    (oneFileManager.finalize_layout.1._finalized = true ↔
      oneFileManager.finalize_layout.2 = Option.none) :=
  finalize_layout_spec oneFileManager
    (Reachable.addPath freshManager (.s "a") "p" false Reachable.init)

/-- C4: every registration call (`add_file_path` or `add_items`) clears the
finalized flag unconditionally, and while the flag is down every load or save
call fails with the not-finalized error and changes nothing. -/
theorem registration_resets_finalized (m : ConfigManager) (fid : PyId) (p : String)
    (req : Bool) (items : List (PyId × ItemLike)) (w : World) :
    (m.add_file_path fid p req).1._finalized = false ∧
    (m.add_items fid items).1._finalized = false ∧
    (m._finalized = false →
      m.load_configs w = (m, w, some .notFinalized) ∧
      m.load_config_file fid w = (m, w, some .notFinalized) ∧
      m.save_configs w = (w, some .notFinalized) ∧
      m.save_config_file fid w = (w, some .notFinalized)) := by
  refine ⟨add_file_path_finalized m fid p req, rfl, fun h => ?_⟩
  simp [ConfigManager.load_configs, ConfigManager.load_config_file,
        ConfigManager.save_configs, ConfigManager.save_config_file, h]

theorem registration_resets_finalized_witness :
    (freshManager.add_file_path (.s "a") "p" false).1._finalized = false ∧
    (freshManager.add_items (.s "a") []).1._finalized = false ∧
    (freshManager._finalized = false →
      freshManager.load_configs emptyWorld =
        (freshManager, emptyWorld, some .notFinalized) ∧
      freshManager.load_config_file (.s "a") emptyWorld =
        (freshManager, emptyWorld, some .notFinalized) ∧
      freshManager.save_configs emptyWorld = (emptyWorld, some .notFinalized) ∧
      freshManager.save_config_file (.s "a") emptyWorld =
        (emptyWorld, some .notFinalized)) :=
  registration_resets_finalized freshManager (.s "a") "p" false [] emptyWorld

/-- C6: with the layout finalized, loading a registered file that is absent
on disk and marked required fails with the required-file-missing error and
leaves the manager and the entire world (heap, filesystem, event log)
untouched. -/
theorem load_missing_required_fails (m : ConfigManager) (fid : PyId)
    (ft : ConfigFileTemplate) (path : String) (w : World)
    (hfin : m._finalized = true)
    (hft : lookupKey m._file_templates fid = some ft)
    (hpath : ft.file_path = some path)
    (habsent : lookupKey w.fs path = Option.none)
    (hreq : ft.file_required = true) :
    m.load_config_file fid w = (m, w, some (.requiredFileMissing fid)) := by
  simp [ConfigManager.load_config_file, hfin, hft, ConfigManager._load_config_file,
        hpath, habsent, hreq, setKey_eq_of_lookup _ _ _ hft, manager_eta m hfin]

def requiredFileManager : ConfigManager :=
  { _file_templates :=
      [(.s "f", { file_path := some "p", file_required := true, item_templates := [] })],
    _finalized := true }

theorem load_missing_required_fails_witness :
    requiredFileManager.load_config_file (.s "f") emptyWorld =
      (requiredFileManager, emptyWorld, some (.requiredFileMissing (.s "f"))) :=
  load_missing_required_fails requiredFileManager (.s "f")
    { file_path := some "p", file_required := true, item_templates := [] }
    "p" emptyWorld rfl rfl rfl rfl rfl

/-- C7: with the layout finalized, loading a registered file that is present
on disk but whose document's `properties.id` differs from the expected file
id fails with the id-mismatch error before any item template is processed:
the manager and the entire world (heap, event log) are untouched. -/
theorem load_id_mismatch_fails (m : ConfigManager) (fid : PyId)
    (ft : ConfigFileTemplate) (path : String) (w : World)
    (doc props idv : JsonValue)
    (hfin : m._finalized = true)
    (hft : lookupKey m._file_templates fid = some ft)
    (hpath : ft.file_path = some path)
    (hdoc : lookupKey w.fs path = some doc)
    (hprops : jsonIndex doc "properties" = some props)
    (hid : jsonIndex props "id" = some idv)
    (hne : jsonEqId idv fid = false) :
    m.load_config_file fid w = (m, w, some .fileIdMismatch) := by
  simp [ConfigManager.load_config_file, hfin, hft, ConfigManager._load_config_file,
        hpath, hdoc, hprops, hid, hne, setKey_eq_of_lookup _ _ _ hft, manager_eta m hfin]

def mismatchDoc : JsonValue :=
  .obj [("properties", .obj [("id", .str "other")]), ("general_items", .obj [])]

def mismatchWorld : World := { heap := [], fs := [("p", mismatchDoc)], events := [] }

def plainFileManager : ConfigManager :=
  { _file_templates :=
      [(.s "f", { file_path := some "p", file_required := false, item_templates := [] })],
    _finalized := true }

/-! ### Deserialize step lemmas -/

theorem deserialize_target_world (tmpl : ConfigItemTemplate) (iid : PyId)
    (j : Option JsonValue) (w : World) (ct : ConfigTarget)
    (ht : tmpl.target = .target ct) :
    tmpl._deserialize_obj iid j w =
      (tmpl,
       { w with
         heap := setKey w.heap ct.obj
           (setKey (getOwner w.heap ct.obj) ct.attr
             (ct.factory.config_deserialize iid j tmpl.default_args tmpl.default_kwargs)),
         events := w.events ++
           (if pyIsNone (pyGet (getOwner w.heap ct.obj) ct.attr) then []
            else [Event.overwriteWarn ct.obj ct.attr]) ++
           [Event.factoryCall iid j] }) := by
  simp [ConfigItemTemplate._deserialize_obj, ht]

theorem deserialize_entity_none (tmpl : ConfigItemTemplate) (iid : PyId) (w : World)
    (e : DirectEnt) (ht : tmpl.target = .entity e) :
    tmpl._deserialize_obj iid Option.none w = (tmpl, w) := by
  simp [ConfigItemTemplate._deserialize_obj, ht]

/-- Loading with no file on disk appends, per item, at most an overwrite
warning plus one factory invocation carrying the JSON value `None`; no
reconfigure invocation is ever logged. -/
theorem loadItemsLoop_none_events (items : List (PyId × ConfigItemTemplate)) :
    ∀ w : World, ∃ newEvents : List Event,
      (loadItemsLoop items Option.none w).2.events = w.events ++ newEvents ∧
      (∀ e ∈ newEvents, e.isReconfig = false) ∧
      (∀ iid tmpl, (iid, tmpl) ∈ items → ∀ ct, tmpl.target = .target ct →
        Event.factoryCall iid Option.none ∈ newEvents) := by
  induction items with
  | nil =>
      intro w
      refine ⟨[], by simp [loadItemsLoop], by simp, ?_⟩
      intro iid tmpl h
      cases h
  | cons p rest ih =>
      intro w
      obtain ⟨iid0, tmpl0⟩ := p
      cases ht : tmpl0.target with
      | target ct =>
          obtain ⟨tailE, h1, h2, h3⟩ :=
            ih (tmpl0._deserialize_obj iid0 Option.none w).2
          refine ⟨(if pyIsNone (pyGet (getOwner w.heap ct.obj) ct.attr) then []
                   else [Event.overwriteWarn ct.obj ct.attr]) ++
                  [Event.factoryCall iid0 Option.none] ++ tailE, ?_, ?_, ?_⟩
          · show (loadItemsLoop ((iid0, tmpl0) :: rest) Option.none w).2.events = _
            rw [show (loadItemsLoop ((iid0, tmpl0) :: rest) Option.none w).2 =
                  (loadItemsLoop rest Option.none
                    (tmpl0._deserialize_obj iid0 (fileGet Option.none iid0) w).2).2 from rfl]
            rw [show fileGet Option.none iid0 = Option.none from rfl]
            rw [h1, deserialize_target_world tmpl0 iid0 Option.none w ct ht]
            simp
          · intro e he
            simp only [List.mem_append] at he
            rcases he with (he | he) | he
            · rcases hw : pyIsNone (pyGet (getOwner w.heap ct.obj) ct.attr) with _ | _ <;>
                rw [hw] at he <;> simp at he
              rw [he]
              rfl
            · simp at he
              rw [he]
              rfl
            · exact h2 e he
          · intro iid tmpl hmem ct2 ht2
            rcases List.mem_cons.mp hmem with h | h
            · obtain ⟨hk, hv⟩ := Prod.mk.injEq .. ▸ h
              subst hk; subst hv
              simp
            · simp only [List.mem_append]
              exact Or.inr (h3 iid tmpl h ct2 ht2)
      | entity e0 =>
          obtain ⟨tailE, h1, h2, h3⟩ := ih w
          refine ⟨tailE, ?_, h2, ?_⟩
          · show (loadItemsLoop ((iid0, tmpl0) :: rest) Option.none w).2.events = _
            rw [show (loadItemsLoop ((iid0, tmpl0) :: rest) Option.none w).2 =
                  (loadItemsLoop rest Option.none
                    (tmpl0._deserialize_obj iid0 (fileGet Option.none iid0) w).2).2 from rfl]
            rw [show fileGet Option.none iid0 = Option.none from rfl]
            rw [deserialize_entity_none tmpl0 iid0 w e0 ht]
            exact h1
          · intro iid tmpl hmem ct2 ht2
            rcases List.mem_cons.mp hmem with h | h
            · obtain ⟨hk, hv⟩ := Prod.mk.injEq .. ▸ h
              subst hk; subst hv
              rw [ht] at ht2
              cases ht2
            · exact h3 iid tmpl h ct2 ht2

/-- C5: with the layout finalized, loading a registered file that is absent
on disk and not required succeeds; each item bound to a target indirection
has its `Factory` invoked with the JSON value `None`, and no direct entity's
reconfigure operation is ever invoked. -/
theorem load_missing_not_required_defaults (m : ConfigManager) (fid : PyId)
    (ft : ConfigFileTemplate) (path : String) (w : World)
    (hfin : m._finalized = true)
    (hft : lookupKey m._file_templates fid = some ft)
    (hpath : ft.file_path = some path)
    (habsent : lookupKey w.fs path = Option.none)
    (hreq : ft.file_required = false) :
    ∃ m2 newEvents,
      m.load_config_file fid w =
        (m2, (loadItemsLoop ft.item_templates Option.none w).2, Option.none) ∧
      (loadItemsLoop ft.item_templates Option.none w).2.events =
        w.events ++ newEvents ∧
      (∀ e ∈ newEvents, e.isReconfig = false) ∧
      (∀ iid tmpl, (iid, tmpl) ∈ ft.item_templates → ∀ ct, tmpl.target = .target ct →
        Event.factoryCall iid Option.none ∈ newEvents) := by
  obtain ⟨newEvents, h1, h2, h3⟩ := loadItemsLoop_none_events ft.item_templates w
  have hgoal : m.load_config_file fid w =
      ({ m with
         _file_templates := setKey m._file_templates fid
           { ft with item_templates := (loadItemsLoop ft.item_templates Option.none w).1 } },
       (loadItemsLoop ft.item_templates Option.none w).2, Option.none) := by
    simp [ConfigManager.load_config_file, hfin, hft, ConfigManager._load_config_file,
          hpath, habsent, hreq]
  exact ⟨_, newEvents, hgoal, h1, h2, h3⟩

def probeFactory : Factory :=
  { config_deserialize := fun _ j _ _ =>
      match j with
      | some v => .raw v
      | Option.none => .raw (.int 0) }

def probeEntity : DirectEnt :=
  { serializable := true, state := .int 1,
    serializeF := fun s _ => s, reconfigF := fun _ _ j _ _ => j }

def mixedItemsManager : ConfigManager :=
  { _file_templates :=
      [(.s "f",
        { file_path := some "p", file_required := false,
          item_templates :=
            [(.s "t", ⟨.target ⟨0, "x", probeFactory⟩, [], []⟩),
             (.s "d", ⟨.entity probeEntity, [], []⟩)] })],
    _finalized := true }

def mixedItemsWorld : World := { heap := [(0, [])], fs := [], events := [] }

theorem load_missing_not_required_defaults_witness :
    ∃ m2 newEvents,
      mixedItemsManager.load_config_file (.s "f") mixedItemsWorld =
        (m2,
         (loadItemsLoop
           [(.s "t", ⟨.target ⟨0, "x", probeFactory⟩, [], []⟩),
            (.s "d", ⟨.entity probeEntity, [], []⟩)]
           Option.none mixedItemsWorld).2, Option.none) ∧
      (loadItemsLoop
        [(.s "t", ⟨.target ⟨0, "x", probeFactory⟩, [], []⟩),
         (.s "d", ⟨.entity probeEntity, [], []⟩)]
        Option.none mixedItemsWorld).2.events =
        mixedItemsWorld.events ++ newEvents ∧
      (∀ e ∈ newEvents, e.isReconfig = false) ∧
      (∀ iid tmpl,
        (iid, tmpl) ∈
          [((.s "t" : PyId), (⟨.target ⟨0, "x", probeFactory⟩, [], []⟩ : ConfigItemTemplate)),
           (.s "d", ⟨.entity probeEntity, [], []⟩)] →
        ∀ ct, tmpl.target = .target ct →
          Event.factoryCall iid Option.none ∈ newEvents) :=
  load_missing_not_required_defaults mixedItemsManager (.s "f")
    { file_path := some "p", file_required := false,
      item_templates :=
        [(.s "t", ⟨.target ⟨0, "x", probeFactory⟩, [], []⟩),
         (.s "d", ⟨.entity probeEntity, [], []⟩)] }
    "p" mixedItemsWorld rfl rfl rfl rfl rfl

/-- C9: a target indirection whose owner holds `None` at the named
attribute/key behaves exactly like an absent destination: serializing the
item fails with the missing-object error even though the key exists, and
deserializing into it emits no overwrite warning before the factory's result
replaces the `None`. -/
theorem none_value_like_absent (ct : ConfigTarget) (args : List PyVal)
    (kwargs : List (String × PyVal)) (iid : PyId) (j : Option JsonValue) (w : World)
    (hkey : lookupKey (getOwner w.heap ct.obj) ct.attr = some PyVal.none) :
    (ConfigItemTemplate.mk (.target ct) args kwargs)._serialize_obj iid w.heap =
      .error .nonExistentObject ∧
    ((ConfigItemTemplate.mk (.target ct) args kwargs)._deserialize_obj iid j w).2 =
      { w with
        heap := setKey w.heap ct.obj
          (setKey (getOwner w.heap ct.obj) ct.attr
            (ct.factory.config_deserialize iid j args kwargs)),
        events := w.events ++ [Event.factoryCall iid j] } := by
  have hget : pyGet (getOwner w.heap ct.obj) ct.attr = PyVal.none := by
    simp [pyGet, hkey]
  constructor
  · simp [ConfigItemTemplate._serialize_obj, hget, pyIsNone]
  · simp [ConfigItemTemplate._deserialize_obj, hget, pyIsNone]

def noneSlotWorld : World :=
  { heap := [(0, [("x", PyVal.none)])], fs := [], events := [] }

theorem none_value_like_absent_witness :
    (ConfigItemTemplate.mk (.target ⟨0, "x", probeFactory⟩) [] [])._serialize_obj
        (.s "t") noneSlotWorld.heap = .error .nonExistentObject ∧
    ((ConfigItemTemplate.mk (.target ⟨0, "x", probeFactory⟩) [] [])._deserialize_obj
        (.s "t") Option.none noneSlotWorld).2 =
      { noneSlotWorld with
        heap := setKey noneSlotWorld.heap 0
          (setKey (getOwner noneSlotWorld.heap 0) "x"
            (probeFactory.config_deserialize (.s "t") Option.none [] [])),
        events := noneSlotWorld.events ++ [Event.factoryCall (.s "t") Option.none] } :=
  none_value_like_absent ⟨0, "x", probeFactory⟩ [] [] (.s "t") Option.none
    noneSlotWorld rfl

theorem load_id_mismatch_fails_witness :
    plainFileManager.load_config_file (.s "f") mismatchWorld =
      (plainFileManager, mismatchWorld, some .fileIdMismatch) :=
  load_id_mismatch_fails plainFileManager (.s "f")
    { file_path := some "p", file_required := false, item_templates := [] }
    "p" mismatchWorld mismatchDoc (.obj [("id", .str "other")]) (.str "other")
    rfl rfl rfl rfl rfl rfl (by decide)

/-! ### Registration loop lemmas -/

/-- A successful prefix of the registration loop composes: running the loop on
`pre ++ rest` first threads the partially filled template through `pre`. -/
theorem addItemsLoop_append (pre rest : List (PyId × ItemLike)) :
    ∀ ft ft1, addItemsLoop ft pre = (ft1, Option.none) →
      addItemsLoop ft (pre ++ rest) = addItemsLoop ft1 rest := by
  induction pre with
  | nil =>
      intro ft ft1 h
      injection h with h1 h2
      subst h1
      rfl
  | cons p pre' ih =>
      intro ft ft1 h
      obtain ⟨iid0, like0⟩ := p
      cases hdup : (lookupKey ft.item_templates iid0).isSome with
      | true => simp [addItemsLoop, hdup] at h
      | false =>
          cases like0 with
          | tmpl t =>
              simp only [addItemsLoop, hdup, Bool.false_eq_true, if_false,
                List.cons_append] at h ⊢
              exact ih _ _ h
          | target t =>
              simp only [addItemsLoop, hdup, Bool.false_eq_true, if_false,
                List.cons_append] at h ⊢
              exact ih _ _ h
          | entity e =>
              simp only [addItemsLoop, hdup, Bool.false_eq_true, if_false,
                List.cons_append] at h ⊢
              exact ih _ _ h
          | tup head tupR =>
              cases hb : buildFromTuple head tupR with
              | ok t =>
                  simp only [addItemsLoop, hdup, Bool.false_eq_true, if_false,
                    List.cons_append, hb] at h ⊢
                  exact ih _ _ h
              | error e => simp [addItemsLoop, hdup, hb] at h
          | unsupported => simp [addItemsLoop, hdup] at h

/-- A successful run of the registration loop keeps every previously
registered item id and registers every id it processed. -/
theorem addItemsLoop_keeps (pre : List (PyId × ItemLike)) :
    ∀ ft ft1, addItemsLoop ft pre = (ft1, Option.none) →
      ∀ j, ((lookupKey ft.item_templates j).isSome = true ∨ j ∈ pre.map Prod.fst) →
        (lookupKey ft1.item_templates j).isSome = true := by
  induction pre with
  | nil =>
      intro ft ft1 h j hj
      injection h with h1 h2
      subst h1
      rcases hj with hj | hj
      · exact hj
      · simp at hj
  | cons p pre' ih =>
      intro ft ft1 h j hj
      obtain ⟨iid0, like0⟩ := p
      have hj' : j = iid0 ∨ ((j = iid0 → False) ∧
          ((lookupKey ft.item_templates j).isSome = true ∨ j ∈ pre'.map Prod.fst)) := by
        by_cases hji : j = iid0
        · exact Or.inl hji
        · refine Or.inr ⟨hji, ?_⟩
          rcases hj with hj | hj
          · exact Or.inl hj
          · simp only [List.map_cons, List.mem_cons] at hj
            rcases hj with hj | hj
            · exact absurd hj hji
            · exact Or.inr hj
      cases hdup : (lookupKey ft.item_templates iid0).isSome with
      | true => simp [addItemsLoop, hdup] at h
      | false =>
          have step : ∀ t : ConfigItemTemplate,
              addItemsLoop { ft with item_templates := setKey ft.item_templates iid0 t }
                  pre' = (ft1, Option.none) →
              (lookupKey ft1.item_templates j).isSome = true := by
            intro t hstep
            refine ih _ _ hstep j ?_
            rcases hj' with rfl | ⟨hne, hrest⟩
            · exact Or.inl (by simp [lookupKey_setKey_self])
            · rcases hrest with hpr | hpr
              · exact Or.inl (lookupKey_isSome_setKey _ iid0 j t hpr)
              · exact Or.inr hpr
          cases like0 with
          | tmpl t =>
              simp only [addItemsLoop, hdup, Bool.false_eq_true, if_false] at h
              exact step t h
          | target t =>
              simp only [addItemsLoop, hdup, Bool.false_eq_true, if_false] at h
              exact step _ h
          | entity e =>
              simp only [addItemsLoop, hdup, Bool.false_eq_true, if_false] at h
              exact step _ h
          | tup head tupR =>
              cases hb : buildFromTuple head tupR with
              | ok t =>
                  simp only [addItemsLoop, hdup, Bool.false_eq_true, if_false, hb] at h
                  exact step t h
              | error e => simp [addItemsLoop, hdup, hb] at h
          | unsupported => simp [addItemsLoop, hdup] at h

/-- C8: for an `add_items` call on a registered file template: a tuple item
whose second element is not a `list` fails with the default-args type error,
one whose third element is not a `dict` fails with the default-kwargs type
error, and an item whose id is already registered fails with the duplicate
error; in each case the manager's template table is left exactly as it was
(no silent overwrite of the existing item template). -/
theorem add_items_validation (m : ConfigManager) (fid : PyId)
    (ft : ConfigFileTemplate) (iid : PyId) (d : Dest) (a b : PyAny)
    (restAny restAny2 : List PyAny) (like : ItemLike)
    (rest : List (PyId × ItemLike)) (t0 : ConfigItemTemplate)
    (hft : lookupKey m._file_templates fid = some ft) :
    (lookupKey ft.item_templates iid = Option.none → a.isList = false →
      m.add_items fid ((iid, .tup d (a :: restAny)) :: rest) =
        ({ _file_templates := m._file_templates, _finalized := false },
         some .badDefaultArgs)) ∧
    (lookupKey ft.item_templates iid = Option.none → a.isList = true →
      b.isDict = false →
      m.add_items fid ((iid, .tup d (a :: b :: restAny2)) :: rest) =
        ({ _file_templates := m._file_templates, _finalized := false },
         some .badDefaultKwargs)) ∧
    (lookupKey ft.item_templates iid = some t0 →
      m.add_items fid ((iid, like) :: rest) =
        ({ _file_templates := m._file_templates, _finalized := false },
         some (.duplicateItem iid)) ∧
      lookupKey
        ((m.add_items fid ((iid, like) :: rest)).1._file_templates) fid = some ft) := by
  have hsd : setdefault m._file_templates fid ConfigFileTemplate.empty =
      (m._file_templates, ft) := by simp [setdefault, hft]
  refine ⟨?_, ?_, ?_⟩
  · intro hno ha
    have hb : buildFromTuple d (a :: restAny) = .error .badDefaultArgs := by
      cases restAny with
      | nil => simp [buildFromTuple, ha]
      | cons b0 r0 =>
          cases r0 with
          | nil => simp [buildFromTuple, ha]
          | cons c0 r1 => simp [buildFromTuple, ha]
    simp [ConfigManager.add_items, hsd, addItemsLoop, hno, hb,
          setKey_eq_of_lookup _ _ _ hft]
  · intro hno ha hbd
    have hb : buildFromTuple d (a :: b :: restAny2) = .error .badDefaultKwargs := by
      cases restAny2 with
      | nil => simp [buildFromTuple, ha, hbd]
      | cons c0 r1 => simp [buildFromTuple, ha, hbd]
    simp [ConfigManager.add_items, hsd, addItemsLoop, hno, hb,
          setKey_eq_of_lookup _ _ _ hft]
  · intro hdup
    constructor
    · simp [ConfigManager.add_items, hsd, addItemsLoop, hdup,
            setKey_eq_of_lookup _ _ _ hft]
    · simp [ConfigManager.add_items, hsd, addItemsLoop, hdup,
            setKey_eq_of_lookup _ _ _ hft, hft]

theorem add_items_validation_witness :
    (lookupKey
        [((.s "t" : PyId), (⟨.target ⟨0, "x", probeFactory⟩, [], []⟩ : ConfigItemTemplate)),
         (.s "d", ⟨.entity probeEntity, [], []⟩)] (.s "t") = Option.none →
      PyAny.other.isList = false →
      mixedItemsManager.add_items (.s "f")
          [((.s "t" : PyId), ItemLike.tup (.entity probeEntity) [PyAny.other])] =
        ({ _file_templates := mixedItemsManager._file_templates, _finalized := false },
         some .badDefaultArgs)) ∧
    (lookupKey
        [((.s "t" : PyId), (⟨.target ⟨0, "x", probeFactory⟩, [], []⟩ : ConfigItemTemplate)),
         (.s "d", ⟨.entity probeEntity, [], []⟩)] (.s "t") = Option.none →
      PyAny.other.isList = true → PyAny.other.isDict = false →
      mixedItemsManager.add_items (.s "f")
          [((.s "t" : PyId), ItemLike.tup (.entity probeEntity)
            [PyAny.other, PyAny.other])] =
        ({ _file_templates := mixedItemsManager._file_templates, _finalized := false },
         some .badDefaultKwargs)) ∧
    (lookupKey
        [((.s "t" : PyId), (⟨.target ⟨0, "x", probeFactory⟩, [], []⟩ : ConfigItemTemplate)),
         (.s "d", ⟨.entity probeEntity, [], []⟩)] (.s "t") =
          some ⟨.target ⟨0, "x", probeFactory⟩, [], []⟩ →
      mixedItemsManager.add_items (.s "f") [((.s "t" : PyId), ItemLike.unsupported)] =
        ({ _file_templates := mixedItemsManager._file_templates, _finalized := false },
         some (.duplicateItem (.s "t"))) ∧
      lookupKey
        ((mixedItemsManager.add_items (.s "f")
          [((.s "t" : PyId), ItemLike.unsupported)]).1._file_templates) (.s "f") =
        some { file_path := some "p", file_required := false,
               item_templates :=
                 [(.s "t", ⟨.target ⟨0, "x", probeFactory⟩, [], []⟩),
                  (.s "d", ⟨.entity probeEntity, [], []⟩)] }) :=
  add_items_validation mixedItemsManager (.s "f")
    { file_path := some "p", file_required := false,
      item_templates :=
        [(.s "t", ⟨.target ⟨0, "x", probeFactory⟩, [], []⟩),
         (.s "d", ⟨.entity probeEntity, [], []⟩)] }
    (.s "t") (.entity probeEntity) PyAny.other PyAny.other [] []
    ItemLike.unsupported []
    ⟨.target ⟨0, "x", probeFactory⟩, [], []⟩ rfl

/-- C10: `add_items` is not atomic: when the call fails partway through its
items (on a duplicate item id, or on an unsupported item shape), every item
it processed before the failing one is still registered in the stored file
template and the finalized flag has already been cleared — the failing call
leaves the manager partially mutated rather than unchanged. -/
theorem add_items_partial_mutation (m : ConfigManager) (fid : PyId)
    (ft ft1 : ConfigFileTemplate) (pre post : List (PyId × ItemLike)) (iid : PyId)
    (like : ItemLike)
    (hft : lookupKey m._file_templates fid = some ft)
    (hpre : addItemsLoop ft pre = (ft1, Option.none)) :
    (∀ j ∈ pre.map Prod.fst, (lookupKey ft1.item_templates j).isSome = true) ∧
    ((lookupKey ft1.item_templates iid).isSome = true →
      m.add_items fid (pre ++ (iid, like) :: post) =
        ({ _file_templates := setKey m._file_templates fid ft1, _finalized := false },
         some (.duplicateItem iid)) ∧
      lookupKey (setKey m._file_templates fid ft1) fid = some ft1) ∧
    ((lookupKey ft1.item_templates iid).isSome = false →
      m.add_items fid (pre ++ (iid, .unsupported) :: post) =
        ({ _file_templates := setKey m._file_templates fid ft1, _finalized := false },
         some .unsupportedItemLike)) := by
  have hsd : setdefault m._file_templates fid ConfigFileTemplate.empty =
      (m._file_templates, ft) := by simp [setdefault, hft]
  refine ⟨fun j hj => addItemsLoop_keeps pre ft ft1 hpre j (Or.inr hj), ?_, ?_⟩
  · intro hdup
    refine ⟨?_, by simp [lookupKey_setKey_self]⟩
    simp [ConfigManager.add_items, hsd,
          addItemsLoop_append pre ((iid, like) :: post) ft ft1 hpre,
          addItemsLoop, hdup]
  · intro hdup
    simp [ConfigManager.add_items, hsd,
          addItemsLoop_append pre ((iid, .unsupported) :: post) ft ft1 hpre,
          addItemsLoop, hdup]

theorem add_items_partial_mutation_witness :
    (∀ j ∈ [((.s "a" : PyId), ItemLike.target ⟨0, "x", probeFactory⟩)].map Prod.fst,
      (lookupKey
        [((.s "a" : PyId), (⟨.target ⟨0, "x", probeFactory⟩, [], []⟩ : ConfigItemTemplate))]
        j).isSome = true) ∧
    ((lookupKey
        [((.s "a" : PyId), (⟨.target ⟨0, "x", probeFactory⟩, [], []⟩ : ConfigItemTemplate))]
        (.s "a")).isSome = true →
      plainFileManager.add_items (.s "f")
          ([((.s "a" : PyId), ItemLike.target ⟨0, "x", probeFactory⟩)] ++
            ((.s "a"), ItemLike.unsupported) :: []) =
        ({ _file_templates :=
            setKey plainFileManager._file_templates (.s "f")
              { file_path := some "p", file_required := false,
                item_templates :=
                  [(.s "a", ⟨.target ⟨0, "x", probeFactory⟩, [], []⟩)] },
           _finalized := false },
         some (.duplicateItem (.s "a"))) ∧
      lookupKey
        (setKey plainFileManager._file_templates (.s "f")
          { file_path := some "p", file_required := false,
            item_templates :=
              [(.s "a", ⟨.target ⟨0, "x", probeFactory⟩, [], []⟩)] }) (.s "f") =
        some { file_path := some "p", file_required := false,
               item_templates :=
                 [(.s "a", ⟨.target ⟨0, "x", probeFactory⟩, [], []⟩)] }) ∧
    ((lookupKey
        [((.s "a" : PyId), (⟨.target ⟨0, "x", probeFactory⟩, [], []⟩ : ConfigItemTemplate))]
        (.s "a")).isSome = false →
      plainFileManager.add_items (.s "f")
          ([((.s "a" : PyId), ItemLike.target ⟨0, "x", probeFactory⟩)] ++
            ((.s "a"), ItemLike.unsupported) :: []) =
        ({ _file_templates :=
            setKey plainFileManager._file_templates (.s "f")
              { file_path := some "p", file_required := false,
                item_templates :=
                  [(.s "a", ⟨.target ⟨0, "x", probeFactory⟩, [], []⟩)] },
           _finalized := false },
         some .unsupportedItemLike)) :=
  add_items_partial_mutation plainFileManager (.s "f")
    { file_path := some "p", file_required := false, item_templates := [] }
    { file_path := some "p", file_required := false,
      item_templates := [(.s "a", ⟨.target ⟨0, "x", probeFactory⟩, [], []⟩)] }
    [((.s "a"), ItemLike.target ⟨0, "x", probeFactory⟩)] [] (.s "a")
    ItemLike.unsupported rfl rfl

/-! ### The spec's concrete scenario (C1) -/

/-- The scenario factory: returns the given JSON value, or `0` when given
none — plain values, not `I_ConfigSerializable` objects. -/
def volumeFactory : Factory :=
  { config_deserialize := fun _ j _ _ =>
      match j with
      | some v => .raw v
      | Option.none => .raw (.int 0) }

/-- The scenario manager: file id `"app"` at path `"p"`, required = false,
one item `"volume"` bound to a target over a mapping (heap owner 0) with key
`"volume"` and the factory above, built through the registration API and
finalized. -/
def scenarioManager : ConfigManager :=
  (((freshManager.add_file_path (.s "app") "p" false).1.add_items
      (.s "app") [(.s "volume", .target ⟨0, "volume", volumeFactory⟩)]).1.finalize_layout).1

/-- The scenario world before any file exists: the target mapping is empty
and the filesystem holds nothing. -/
def scenarioWorld : World := { heap := [(0, [])], fs := [], events := [] }

/-- The world after the on-disk value of `general_items.volume` is set to 7
by hand. -/
def editedWorld : World :=
  { heap := [(0, [("volume", PyVal.raw (.int 0))])],
    fs := [("p", .obj [("properties", .obj [("id", .str "app")]),
                       ("general_items", .obj [("volume", .int 7)])])],
    events := [] }

/-- C1 counterexample: in the spec's concrete scenario the first load does
set mapping["volume"] to 0, but the save that the claim asserts to succeed
fails instead: the plain value 0 produced by the factory does not implement
`I_ConfigSerializable`, so `_serialize_obj` raises and no file is written at
the path. -/
theorem scenario_save_not_serializable :
    ∃ m1 w1, scenarioManager.load_configs scenarioWorld = (m1, w1, Option.none) ∧
      pyGet (getOwner w1.heap 0) "volume" = .raw (.int 0) ∧
      m1.save_configs w1 = (w1, some Err.notSerializable) ∧
      lookupKey w1.fs "p" = Option.none := by
  exact ⟨_, _, rfl, rfl, rfl, rfl⟩

/-- C1 amended: loading before any file exists sets mapping["volume"] to 0;
the subsequent save fails with the not-serializable error and writes
nothing, because the plain value 0 lacks the `I_ConfigSerializable`
capability; and once the file at the path holds `general_items.volume = 7`,
loading again sets mapping["volume"] to 7. -/
theorem scenario_corrected :
    (∃ m1 w1, scenarioManager.load_configs scenarioWorld = (m1, w1, Option.none) ∧
      pyGet (getOwner w1.heap 0) "volume" = .raw (.int 0) ∧
      m1.save_configs w1 = (w1, some Err.notSerializable) ∧
      lookupKey w1.fs "p" = Option.none) ∧
    (∃ m2 w2, scenarioManager.load_configs editedWorld = (m2, w2, Option.none) ∧
      pyGet (getOwner w2.heap 0) "volume" = .raw (.int 7)) := by
  exact ⟨⟨_, _, rfl, rfl, rfl, rfl⟩, ⟨_, _, rfl, rfl⟩⟩

/-! ### Save/load round-trip (C2) -/

/-- A successful serialize loop produces one JSON value per item, in order,
each the result of that item's `_serialize_obj`. -/
theorem saveItemsLoop_ok (h : Heap) (items : List (PyId × ConfigItemTemplate)) :
    ∀ js, saveItemsLoop h items = .ok js →
      js.map Prod.fst = items.map Prod.fst ∧
      ∀ iid tmpl, (iid, tmpl) ∈ items →
        ∃ j, tmpl._serialize_obj iid h = .ok j ∧ (iid, j) ∈ js := by
  induction items with
  | nil =>
      intro js hjs
      injection hjs with h1
      subst h1
      refine ⟨rfl, ?_⟩
      intro iid tmpl hm
      cases hm
  | cons p rest ih =>
      intro js hjs
      obtain ⟨iid0, tmpl0⟩ := p
      cases hs : tmpl0._serialize_obj iid0 h with
      | error e => simp [saveItemsLoop, hs] at hjs
      | ok j0 =>
          cases ht : saveItemsLoop h rest with
          | error e => simp [saveItemsLoop, hs, ht] at hjs
          | ok tail =>
              simp only [saveItemsLoop, hs, ht] at hjs
              injection hjs with h1
              subst h1
              obtain ⟨hmap, hmem⟩ := ih tail ht
              refine ⟨by simp [hmap], ?_⟩
              intro iid tmpl hm
              rcases List.mem_cons.mp hm with he | he
              · obtain ⟨hk, hv⟩ := Prod.mk.injEq .. ▸ he
                subst hk; subst hv
                exact ⟨j0, hs, List.mem_cons_self _ _⟩
              · obtain ⟨j, hj1, hj2⟩ := hmem iid tmpl he
                exact ⟨j, hj1, List.mem_cons_of_mem _ hj2⟩

/-- A target item serializes successfully exactly from a serializable entity
sitting at the target's slot, and the produced JSON value is that entity's
`config_serialize` output. -/
theorem serialize_target_ok (tmpl : ConfigItemTemplate) (iid : PyId) (h : Heap)
    (ct : ConfigTarget) (j : JsonValue) (ht : tmpl.target = .target ct)
    (hok : tmpl._serialize_obj iid h = .ok j) :
    ∃ e : SerEnt, pyGet (getOwner h ct.obj) ct.attr = .ent e ∧ j = e.serialize iid := by
  simp only [ConfigItemTemplate._serialize_obj, ht] at hok
  cases hv : pyGet (getOwner h ct.obj) ct.attr with
  | none => rw [hv] at hok; simp [pyIsNone] at hok
  | raw jj => rw [hv] at hok; simp [pyIsNone] at hok
  | ent e =>
      rw [hv] at hok
      simp only [pyIsNone, Bool.false_eq_true, if_false] at hok
      injection hok with h1
      exact ⟨e, rfl, h1.symm⟩

/-- Deserializing an item that does not write the slot `(r, a)` leaves that
slot's value unchanged. -/
theorem deserialize_preserves_slot (tmpl : ConfigItemTemplate) (iid : PyId)
    (j : Option JsonValue) (w : World) (r : Nat) (a : String)
    (h : writesSlot tmpl r a = false) :
    pyGet (getOwner (tmpl._deserialize_obj iid j w).2.heap r) a =
      pyGet (getOwner w.heap r) a := by
  cases ht : tmpl.target with
  | entity e =>
      cases j with
      | some jv => simp [ConfigItemTemplate._deserialize_obj, ht]
      | none => simp [ConfigItemTemplate._deserialize_obj, ht]
  | target ct =>
      rw [deserialize_target_world tmpl iid j w ct ht]
      simp only [writesSlot, ht, Bool.and_eq_false_imp, beq_iff_eq] at h
      by_cases hr : ct.obj = r
      · subst hr
        have ha : ¬ ct.attr = a := by
          intro hh
          have := h rfl
          rw [hh] at this
          simp at this
        rw [getOwner_setKey_self]
        exact pyGet_setKey_ne _ _ _ _ (fun hh => ha hh.symm)
      · rw [getOwner_setKey_ne _ _ _ _ (fun hh => hr hh.symm)]

/-- The load loop leaves a slot unchanged when no processed item writes
it. -/
theorem loadItemsLoop_preserves_slot (fileItems : Option (List (String × JsonValue)))
    (r : Nat) (a : String) :
    ∀ (items : List (PyId × ConfigItemTemplate)) (w : World),
      (∀ p ∈ items, writesSlot p.2 r a = false) →
      pyGet (getOwner (loadItemsLoop items fileItems w).2.heap r) a =
        pyGet (getOwner w.heap r) a
  | [], w, _ => rfl
  | (iid0, tmpl0) :: rest, w, h => by
      rw [show (loadItemsLoop ((iid0, tmpl0) :: rest) fileItems w).2 =
            (loadItemsLoop rest fileItems
              (tmpl0._deserialize_obj iid0 (fileGet fileItems iid0) w).2).2 from rfl]
      rw [loadItemsLoop_preserves_slot fileItems r a rest _
            (fun p hp => h p (List.mem_cons_of_mem _ hp))]
      exact deserialize_preserves_slot tmpl0 iid0 (fileGet fileItems iid0) w r a
        (h (iid0, tmpl0) (List.mem_cons_self _ _))

/-- After the load loop, the slot of a target item no other item aliases
holds exactly the factory's output for the JSON value looked up under that
item's id. -/
theorem loadItemsLoop_slot_eq (fileItems : Option (List (String × JsonValue)))
    (iid : PyId) (tmpl : ConfigItemTemplate) (ct : ConfigTarget)
    (ht : tmpl.target = .target ct) :
    ∀ (items : List (PyId × ConfigItemTemplate)) (w : World),
      (iid, tmpl) ∈ items → (items.map Prod.fst).Nodup →
      (∀ p ∈ items, p.1 ≠ iid → writesSlot p.2 ct.obj ct.attr = false) →
      pyGet (getOwner (loadItemsLoop items fileItems w).2.heap ct.obj) ct.attr =
        ct.factory.config_deserialize iid (fileGet fileItems iid)
          tmpl.default_args tmpl.default_kwargs := by
  intro items
  induction items with
  | nil =>
      intro w hmem
      cases hmem
  | cons p rest ih =>
      intro w hmem hnd halias
      obtain ⟨iid0, tmpl0⟩ := p
      simp only [List.map_cons, List.nodup_cons] at hnd
      rcases List.mem_cons.mp hmem with he | he
      · obtain ⟨hk, hv⟩ := Prod.mk.injEq .. ▸ he
        subst hk; subst hv
        rw [show (loadItemsLoop ((iid, tmpl) :: rest) fileItems w).2 =
              (loadItemsLoop rest fileItems
                (tmpl._deserialize_obj iid (fileGet fileItems iid) w).2).2 from rfl]
        rw [loadItemsLoop_preserves_slot fileItems ct.obj ct.attr rest _ ?_]
        · rw [deserialize_target_world tmpl iid (fileGet fileItems iid) w ct ht]
          simp [getOwner_setKey_self, pyGet_setKey_self]
        · intro p hp
          refine halias p (List.mem_cons_of_mem _ hp) ?_
          intro hpe
          exact absurd (hpe ▸ List.mem_map.mpr ⟨p, hp, rfl⟩) hnd.1
      · have hne : iid0 ≠ iid := by
          intro hh
          subst hh
          exact absurd (List.mem_map.mpr ⟨(iid0, tmpl), he, rfl⟩) hnd.1
        rw [show (loadItemsLoop ((iid0, tmpl0) :: rest) fileItems w).2 =
              (loadItemsLoop rest fileItems
                (tmpl0._deserialize_obj iid0 (fileGet fileItems iid0) w).2).2 from rfl]
        exact ih _ he hnd.2 (fun p hp hpne => halias p (List.mem_cons_of_mem _ hp) hpne)

theorem jsonEqId_idToJson (fid : PyId) : jsonEqId (idToJson fid) fid = true := by
  cases fid <;> simp [idToJson, jsonEqId]

/-- The factory used in the round-trip counterexample: rebuilds the given
JSON value, or a recognizable default when given none. -/
def markerFactory : Factory :=
  { config_deserialize := fun _ j _ _ =>
      match j with
      | some v => .raw v
      | Option.none => .raw (.str "DEFAULT") }

def intIdManager : ConfigManager :=
  (((freshManager.add_file_path (.s "f") "p" false).1.add_items
      (.s "f") [(.i 5, .target ⟨0, "x", markerFactory⟩)]).1.finalize_layout).1

def intIdWorld : World :=
  { heap := [(0, [("x", PyVal.ent ⟨fun _ => .int 1⟩)])], fs := [], events := [] }

/-- C2 counterexample: with an item id that is the int 5, saving succeeds and
writes the item's value under the string key "5" (JSON object keys are
strings), but the subsequent load looks the item up under the int id 5,
finds nothing, and invokes the factory with `None`: the destination ends up
holding the factory's none-default, not a value derived from the serialized
pre-save value `.int 1` (from which the factory would have rebuilt
`.raw (.int 1)`). -/
theorem roundtrip_int_id_fails :
    ∃ w1 m2 w2,
      intIdManager.save_config_file (.s "f") intIdWorld = (w1, Option.none) ∧
      lookupKey w1.fs "p" =
        some (.obj [("properties", .obj [("id", .str "f")]),
                    ("general_items", .obj [("5", .int 1)])]) ∧
      intIdManager.load_config_file (.s "f") w1 = (m2, w2, Option.none) ∧
      pyGet (getOwner w2.heap 0) "x" = .raw (.str "DEFAULT") ∧
      markerFactory.config_deserialize (.i 5) (some (.int 1)) [] [] = .raw (.int 1) ∧
      PyVal.raw (.str "DEFAULT") ≠ PyVal.raw (.int 1) := by
  refine ⟨_, _, _, rfl, rfl, rfl, rfl, rfl, ?_⟩
  intro h
  exact JsonValue.noConfusion (PyVal.raw.inj h)

/-- C2 amended: for a finalized manager and a registered file template whose
item ids have pairwise distinct string forms, a successful save followed by a
load of the same file leaves, at the slot of every item bound to a target
indirection whose id is a string and whose slot no other item writes, exactly
the factory's reconstruction from that item's serialized pre-save value — so
the destination value is equal to the pre-save value whenever the factory's
deserialize is (under its notion of equality) a left inverse of the
serialization. -/
theorem save_load_roundtrip (m : ConfigManager) (fid : PyId)
    (ft : ConfigFileTemplate) (w w1 : World) (iid : PyId) (k : String)
    (tmpl : ConfigItemTemplate) (ct : ConfigTarget)
    (hfin : m._finalized = true)
    (hft : lookupKey m._file_templates fid = some ft)
    (hkeys : (ft.item_templates.map fun p => idKey p.1).Nodup)
    (hmem : (iid, tmpl) ∈ ft.item_templates)
    (hid : iid = PyId.s k)
    (ht : tmpl.target = .target ct)
    (halias : ∀ p ∈ ft.item_templates, p.1 ≠ iid →
      writesSlot p.2 ct.obj ct.attr = false)
    (hsave : m.save_config_file fid w = (w1, Option.none)) :
    ∃ e : SerEnt, pyGet (getOwner w.heap ct.obj) ct.attr = .ent e ∧
      ∃ m2 w2, m.load_config_file fid w1 = (m2, w2, Option.none) ∧
        pyGet (getOwner w2.heap ct.obj) ct.attr =
          ct.factory.config_deserialize iid (some (e.serialize iid))
            tmpl.default_args tmpl.default_kwargs := by
  simp only [ConfigManager.save_config_file, hfin, hft] at hsave
  rw [if_neg (by simp)] at hsave
  unfold ConfigManager._save_config_file at hsave
  cases hp : ft.file_path with
  | none => rw [hp] at hsave; simp at hsave
  | some path =>
      rw [hp] at hsave
      cases hs : saveItemsLoop w.heap ft.item_templates with
      | error e => rw [hs] at hsave; simp at hsave
      | ok js =>
          rw [hs] at hsave
          have hw1 : w1 = { w with fs := setKey w.fs path (dumpDoc fid js) } := by
            injection hsave with h1 h2
            exact h1.symm
          obtain ⟨hmap, hitems⟩ := saveItemsLoop_ok w.heap ft.item_templates js hs
          obtain ⟨j, hser, hjmem⟩ := hitems iid tmpl hmem
          obtain ⟨e, hslot, hje⟩ := serialize_target_ok tmpl iid w.heap ct j ht hser
          refine ⟨e, hslot, ?_⟩
          have hfkeys : (dumpItems js).map Prod.fst =
              ft.item_templates.map fun p => idKey p.1 := by
            calc (dumpItems js).map Prod.fst
                = js.map (fun p => idKey p.1) := by
                  rw [dumpItems, List.map_map]; rfl
              _ = (js.map Prod.fst).map idKey := by rw [List.map_map]; rfl
              _ = (ft.item_templates.map Prod.fst).map idKey := by rw [hmap]
              _ = ft.item_templates.map fun p => idKey p.1 := by rw [List.map_map]; rfl
          have hlook : lookupKey (dumpItems js) k = some j := by
            apply lookupKey_of_mem_nodup
            · rw [hfkeys]
              exact hkeys
            · have hk : (k, j) = ((idKey iid : String), j) := by rw [hid]; rfl
              rw [hk]
              exact List.mem_map.mpr ⟨(iid, j), hjmem, rfl⟩
          have hidsnodup : (ft.item_templates.map Prod.fst).Nodup := by
            have hh := hkeys
            rw [show (ft.item_templates.map fun p => idKey p.1) =
                  (ft.item_templates.map Prod.fst).map idKey from by
                rw [List.map_map]; rfl] at hh
            exact hh.of_map
          have hfs : lookupKey w1.fs path = some (dumpDoc fid js) := by
            rw [hw1]
            exact lookupKey_setKey_self _ _ _
          have hload : m.load_config_file fid w1 =
              ({ m with
                 _file_templates := setKey m._file_templates fid
                   { ft with item_templates :=
                       (loadItemsLoop ft.item_templates (some (dumpItems js)) w1).1 } },
               (loadItemsLoop ft.item_templates (some (dumpItems js)) w1).2,
               Option.none) := by
            simp only [ConfigManager.load_config_file, hfin, hft]
            rw [if_neg (by simp)]
            simp only [ConfigManager._load_config_file, hp, hfs, dumpDoc, jsonIndex,
              jsonAsObj, lookupKey, jsonEqId_idToJson]
            simp [lookupKey, jsonAsObj, jsonEqId_idToJson]
          refine ⟨_, _, hload, ?_⟩
          rw [loadItemsLoop_slot_eq (some (dumpItems js)) iid tmpl ct ht
                ft.item_templates w1 hmem hidsnodup halias]
          rw [show fileGet (some (dumpItems js)) iid =
                lookupKey (dumpItems js) k from by rw [hid]; rfl]
          rw [hlook, hje]

def strIdManager : ConfigManager :=
  { _file_templates :=
      [(.s "f", { file_path := some "p", file_required := false,
                  item_templates :=
                    [(.s "v", ⟨.target ⟨0, "x", markerFactory⟩, [], []⟩)] })],
    _finalized := true }

def entWorld : World :=
  { heap := [(0, [("x", PyVal.ent ⟨fun _ => .int 3⟩)])], fs := [], events := [] }

def savedWorld : World :=
  { heap := [(0, [("x", PyVal.ent ⟨fun _ => .int 3⟩)])],
    fs := [("p", .obj [("properties", .obj [("id", .str "f")]),
                       ("general_items", .obj [("v", .int 3)])])],
    events := [] }

theorem save_load_roundtrip_witness :
    ∃ e : SerEnt, pyGet (getOwner entWorld.heap 0) "x" = .ent e ∧
      ∃ m2 w2, strIdManager.load_config_file (.s "f") savedWorld = (m2, w2, Option.none) ∧
        pyGet (getOwner w2.heap 0) "x" =
          markerFactory.config_deserialize (.s "v") (some (e.serialize (.s "v"))) [] [] :=
  save_load_roundtrip strIdManager (.s "f")
    { file_path := some "p", file_required := false,
      item_templates := [(.s "v", ⟨.target ⟨0, "x", markerFactory⟩, [], []⟩)] }
    entWorld savedWorld (.s "v") "v" ⟨.target ⟨0, "x", markerFactory⟩, [], []⟩
    ⟨0, "x", markerFactory⟩ rfl rfl (by simp) (List.mem_singleton.mpr rfl) rfl rfl
    (by
      intro p hp hne
      rw [List.mem_singleton] at hp
      subst hp
      exact absurd rfl hne)
    rfl

end ConfigManagerPy
